import Mathlib

/-!
Verification of the transport and session core of StumpfWORKS-Nexus
(`src-tauri/src/ssh/client.rs`, `src-tauri/src/terminal/manager.rs`,
`src-tauri/src/terminal/commands.rs`) against its natural-language
specification.

Modelling conventions:
* `Uuid` values are modelled as `Nat`; `Vec<u8>` byte buffers as `List Nat`.
* UTF-8 lossy decoding (`String::from_utf8_lossy`) only re-presents the byte
  sequence; it is abstracted away and events/outputs carry the raw bytes.
* Asynchronous effects of the environment (the network, the remote server,
  the Tokio runtime) are passed in explicitly as environment records: each
  fallible awaited call is represented by its outcome, and durations are
  natural numbers compared against the configured timeout.
* The per-session multiplexer loop (`tokio::select!`) is modelled as a step
  function driven by an explicit schedule choosing which ready branch fires,
  mirroring Tokio's randomized branch polling.
* The registry (`TerminalManager`) is a map `Nat → Option TerminalSession`;
  each statement of the Rust command handlers that briefly acquires the
  registry lock is one atomic step of a small-step machine, and concurrent
  command handlers are interleavings of those steps.
-/

namespace StumpfNexus

/-- Byte buffers (`Vec<u8>` / `&[u8]`). -/
abbrev Bytes := List Nat

instance {α β : Type} [DecidableEq α] [DecidableEq β] : DecidableEq (Except α β) :=
  fun x y =>
    match x, y with
    | .error a, .error b =>
      if h : a = b then .isTrue (by rw [h]) else .isFalse (fun hh => by cases hh; exact h rfl)
    | .ok a, .ok b =>
      if h : a = b then .isTrue (by rw [h]) else .isFalse (fun hh => by cases hh; exact h rfl)
    | .error _, .ok _ => .isFalse (fun hh => by cases hh)
    | .ok _, .error _ => .isFalse (fun hh => by cases hh)

/-! ## SSH layer (`src-tauri/src/ssh/client.rs`) -/

/-- `AuthMethod` from `ssh/client.rs`. -/
inductive AuthMethod
  | Password (password : String)
  | PrivateKey (key_path : String) (passphrase : Option String)
  | Agent
deriving DecidableEq, Repr

/-- `SshConfig` from `ssh/client.rs`. -/
structure SshConfig where
  host : String
  port : Nat
  username : String
  auth_method : AuthMethod
  timeout_seconds : Nat
deriving DecidableEq, Repr

/-- `SshError` from `ssh/client.rs` (the `russh` / `russh_keys` / io payloads
are carried as their rendered strings). -/
inductive SshError
  | NotConnected
  | ConnectionFailed (msg : String)
  | AuthenticationFailed
  | CommandFailed (msg : String)
  | ChannelError (msg : String)
  | KeyError (msg : String)
  | Io (msg : String)
  | Russh (msg : String)
  | Timeout
deriving DecidableEq, Repr

/-- The `Display` rendering of `SshError` (`thiserror` attributes in
`ssh/client.rs`), used where the Rust code calls `e.to_string()`. -/
def SshError.message : SshError → String
  | .NotConnected => "Not connected to server"
  | .ConnectionFailed s => "Connection failed: " ++ s
  | .AuthenticationFailed => "Authentication failed"
  | .CommandFailed s => "Command execution failed: " ++ s
  | .ChannelError s => "Channel error: " ++ s
  | .KeyError s => "Key error: " ++ s
  | .Io s => "IO error: " ++ s
  | .Russh s => "SSH error: " ++ s
  | .Timeout => "Timeout"

/-- `SshClient` from `ssh/client.rs`: the `session : Option<Handle<_>>`
connection handle is the only state the claims inspect, so the handle itself
is modelled as `Option Unit`. -/
structure SshClient where
  config : SshConfig
  session : Option Unit
  output_tx : Bool
deriving DecidableEq, Repr

/-- `SshClient::new` (the random `Uuid` id is not modelled). -/
def SshClient.new (config : SshConfig) : SshClient :=
  { config := config, session := none, output_tx := false }

/-- `SshClient::is_connected`. -/
def SshClient.is_connected (c : SshClient) : Bool :=
  c.session.isSome

/-- Environment of one `SshClient::connect` call: how long the
`client::connect` future needs, its outcome if it completes, the outcome of
`load_secret_key` (for key auth), how long authentication takes, and the
outcome of `authenticate_password` / `authenticate_publickey`
(`Except.error` is a transport-level `russh` error, `Except.ok b` is the
server's boolean acceptance). -/
structure SshConnectEnv where
  connectElapsed : Nat
  connectOutcome : Except String Unit
  keyLoad : Except String Unit
  authElapsed : Nat
  authOutcome : Except String Bool
deriving DecidableEq, Repr

/-- `SshClient::connect` (`ssh/client.rs` lines 206-266).

`tokio::time::timeout(timeout, connect_future)` elapses exactly when the
connect future needs more than `timeout_seconds`; authentication runs after
that `timeout` wrapper and is not raced against any clock.  Error paths
return before `self.session` is assigned, so the client is returned
unchanged on every error. -/
def SshClient.connect (c : SshClient) (env : SshConnectEnv) :
    Except SshError Unit × SshClient :=
  if c.config.timeout_seconds < env.connectElapsed then
    (.error .Timeout, c)
  else
    match env.connectOutcome with
    | .error e => (.error (.ConnectionFailed e), c)
    | .ok () =>
      let authenticated : Except SshError Bool :=
        match c.config.auth_method with
        | .Password _ =>
          match env.authOutcome with
          | .error e => .error (.Russh e)
          | .ok b => .ok b
        | .PrivateKey _ _ =>
          match env.keyLoad with
          | .error e => .error (.KeyError e)
          | .ok () =>
            match env.authOutcome with
            | .error e => .error (.Russh e)
            | .ok b => .ok b
        | .Agent => .error .AuthenticationFailed
      match authenticated with
      | .error e => (.error e, c)
      | .ok false => (.error .AuthenticationFailed, c)
      | .ok true => (.ok (), { c with session := some () })

/-- `SshClient::disconnect` (`ssh/client.rs` lines 342-351): the handle is
removed with `take()` before the graceful close is awaited, so it is cleared
even when the close errors. -/
def SshClient.disconnect (c : SshClient) (closeOutcome : Except String Unit) :
    Except SshError Unit × SshClient :=
  match c.session with
  | none => (.ok (), c)
  | some _ =>
    match closeOutcome with
    | .error e => (.error (.Russh e), { c with session := none })
    | .ok () => (.ok (), { c with session := none })

/-- `SshClient::open_shell` (`ssh/client.rs` lines 307-326): requires a
connection handle; channel open / pty / shell requests may fail with a
`russh` error. -/
def SshClient.open_shell (c : SshClient) (shellOutcome : Except String Unit) :
    Except SshError Unit :=
  match c.session with
  | none => .error .NotConnected
  | some _ =>
    match shellOutcome with
    | .error e => .error (.Russh e)
    | .ok () => .ok ()

/-! ## Command execution (`SshClient::execute`, `ssh/client.rs` 269-304) -/

/-- The `russh::ChannelMsg` variants the drain loops inspect; `other` stands
for every remaining variant (all hit the `_ => {}` arm). -/
inductive ChannelMsg
  | data (bytes : Bytes)
  | extendedData (bytes : Bytes) (ext : Nat)
  | exitStatus (code : Nat)
  | eof
  | other
deriving DecidableEq, Repr

/-- Reinterpretation of a `u32` exit status as an `i32`
(`exit_status as i32`). -/
def toI32 (n : Nat) : Int :=
  if n % 2 ^ 32 < 2 ^ 31 then ((n % 2 ^ 32 : Nat) : Int)
  else ((n % 2 ^ 32 : Nat) : Int) - 2 ^ 32

/-- `CommandOutput` from `ssh/client.rs` (stdout/stderr kept as the raw byte
buffers accumulated before the final lossy decode). -/
structure CommandOutput where
  stdout : Bytes
  stderr : Bytes
  exit_code : Int
deriving DecidableEq, Repr

/-- The drain loop of `SshClient::execute`: the `msgs` list is the sequence
of values `channel.wait()` yields; the end of the list is `wait()` returning
`None` (channel closed).  Mirrors lines 279-297: `Data` extends stdout,
`ExtendedData` with `ext == 1` extends stderr, `ExitStatus` overwrites the
exit code and continues, `Eof` or `None` breaks. -/
def executeLoop : List ChannelMsg → Bytes → Bytes → Int → Bytes × Bytes × Int
  | [], stdout, stderr, code => (stdout, stderr, code)
  | msg :: rest, stdout, stderr, code =>
    match msg with
    | .data b => executeLoop rest (stdout ++ b) stderr code
    | .extendedData b ext =>
      if ext = 1 then executeLoop rest stdout (stderr ++ b) code
      else executeLoop rest stdout stderr code
    | .exitStatus n => executeLoop rest stdout stderr (toI32 n)
    | .eof => (stdout, stderr, code)
    | .other => executeLoop rest stdout stderr code

/-- `SshClient::execute`: fails `NotConnected` without a handle; the channel
open and `exec` request may fail (`openOutcome`); otherwise the whole drain
loop runs to completion before any output is returned. -/
def SshClient.execute (c : SshClient) (openOutcome : Except String Unit)
    (msgs : List ChannelMsg) : Except SshError CommandOutput :=
  match c.session with
  | none => .error .NotConnected
  | some _ =>
    match openOutcome with
    | .error e => .error (.Russh e)
    | .ok () =>
      let r := executeLoop msgs [] [] 0
      .ok { stdout := r.1, stderr := r.2.1, exit_code := r.2.2 }

/-- Spec model for claim C7: the specification says `execute` "resolves only
on `ExitStatus` or `Eof`/close — whichever arrives first determining the
reported exit code".  This loop therefore returns at the first `ExitStatus`
as well as at `Eof`/close. -/
def executeLoopResolveAtStatus :
    List ChannelMsg → Bytes → Bytes → Int → Bytes × Bytes × Int
  | [], stdout, stderr, code => (stdout, stderr, code)
  | msg :: rest, stdout, stderr, code =>
    match msg with
    | .data b => executeLoopResolveAtStatus rest (stdout ++ b) stderr code
    | .extendedData b ext =>
      if ext = 1 then executeLoopResolveAtStatus rest stdout (stderr ++ b) code
      else executeLoopResolveAtStatus rest stdout stderr code
    | .exitStatus n => (stdout, stderr, toI32 n)
    | .eof => (stdout, stderr, code)
    | .other => executeLoopResolveAtStatus rest stdout stderr code

/-- Stdout bytes accumulated by the drain loop: every `Data` payload, in
order, up to the first `Eof`. -/
def stdoutBytesOf : List ChannelMsg → Bytes
  | [] => []
  | .data b :: rest => b ++ stdoutBytesOf rest
  | .extendedData _ _ :: rest => stdoutBytesOf rest
  | .exitStatus _ :: rest => stdoutBytesOf rest
  | .eof :: _ => []
  | .other :: rest => stdoutBytesOf rest

/-- Stderr bytes accumulated by the drain loop: every `ExtendedData` payload
with tag 1, in order, up to the first `Eof`. -/
def stderrBytesOf : List ChannelMsg → Bytes
  | [] => []
  | .data _ :: rest => stderrBytesOf rest
  | .extendedData b ext :: rest =>
    if ext = 1 then b ++ stderrBytesOf rest else stderrBytesOf rest
  | .exitStatus _ :: rest => stderrBytesOf rest
  | .eof :: _ => []
  | .other :: rest => stderrBytesOf rest

/-- Exit code reported by the drain loop: the last `ExitStatus` seen before
the first `Eof`, else the accumulator. -/
def lastExitOf : List ChannelMsg → Int → Int
  | [], code => code
  | .data _ :: rest, code => lastExitOf rest code
  | .extendedData _ _ :: rest, code => lastExitOf rest code
  | .exitStatus n :: rest, _ => lastExitOf rest (toI32 n)
  | .eof :: _, code => code
  | .other :: rest, code => lastExitOf rest code

/-! ## Terminal events and errors (`src-tauri/src/terminal/mod.rs`) -/

/-- `TerminalEvent` from `terminal/mod.rs` (payload bytes kept raw). -/
inductive TerminalEvent
  | data (bytes : Bytes)
  | connected
  | disconnected
  | error (msg : String)
  | latency (ms : Nat)
deriving DecidableEq, Repr

/-- `TerminalError` from `terminal/mod.rs`. -/
inductive TerminalError
  | SessionNotFound (id : String)
  | NotConnected
  | ConnectionFailed (msg : String)
  | Ssh (msg : String)
deriving DecidableEq, Repr

/-! ## The per-session multiplexer loop
(`TerminalSession::connect`, `terminal/manager.rs` lines 96-141)

The spawned task is a `tokio::select!` loop over three sources: the input
queue (`input_rx`), the resize queue (`resize_rx`) and the channel
(`channel.wait()`).  `tokio::select!` polls the ready branches in a random
order, so a run of the loop is determined by the queued data plus a
schedule choosing which ready branch fires at each iteration.  A branch
whose queue is empty does not fire (whether the queue is merely empty or
its senders were dropped — the `Some(x) = rx.recv()` pattern disables the
branch on `None`); a schedule entry naming it is a no-op wait.  Write
success is an environment fact, so each queued chunk carries the outcome
its `channel.data` / `channel.window_change` call would have. -/

/-- State the multiplexer loop draws from: the input chunks it will ever
receive (with the fate of each write), the resize requests (with the fate of
each `window_change`), the channel messages `channel.wait()` will yield, and
whether the channel ends after them (`wait()` returning `None`). -/
structure MuxState where
  inputQ : List (Bytes × Bool)
  resizeQ : List ((Nat × Nat) × Bool)
  remoteMsgs : List ChannelMsg
  remoteChannelClosed : Bool
deriving DecidableEq, Repr

/-- Which `select!` branch fires. -/
inductive Branch
  | input
  | resize
  | remote
deriving DecidableEq, Repr

/-- Effects the loop applies to the channel's write side. -/
inductive MuxEffect
  | writeData (bytes : Bytes)
  | windowChange (cols rows : Nat)
deriving DecidableEq, Repr

/-- Why the loop executed `break` (if it did). -/
inductive BreakCause
  | writeFailed
  | remoteClosed
deriving DecidableEq, Repr

/-- Outcome of a run of the multiplexer loop: the events emitted toward the
UI, the effects applied to the channel, and whether/why the loop broke
(`none`: the schedule ended with the loop still parked in `select!`). -/
structure MuxResult where
  events : List TerminalEvent
  effects : List MuxEffect
  ended : Option BreakCause
deriving DecidableEq, Repr

/-- One run of the spawned multiplexer loop under a schedule.  Mirrors
`terminal/manager.rs` lines 97-140: a successful `channel.data` continues; a
failed one logs and breaks (no event); a failed `window_change` logs and
continues; `Data` and `ExtendedData ext: 1` emit a `Data` event; `Eof` or
`None` emits `Disconnected` and breaks; every other message is ignored. -/
def muxRun : List Branch → MuxState → MuxResult
  | [], _ => { events := [], effects := [], ended := none }
  | .input :: sch, st =>
    match st.inputQ with
    | [] => muxRun sch st
    | (bytes, writeOk) :: rest =>
      if writeOk then
        let r := muxRun sch { st with inputQ := rest }
        { r with effects := .writeData bytes :: r.effects }
      else { events := [], effects := [], ended := some .writeFailed }
  | .resize :: sch, st =>
    match st.resizeQ with
    | [] => muxRun sch st
    | (dims, resizeOk) :: rest =>
      if resizeOk then
        let r := muxRun sch { st with resizeQ := rest }
        { r with effects := .windowChange dims.1 dims.2 :: r.effects }
      else muxRun sch { st with resizeQ := rest }
  | .remote :: sch, st =>
    match st.remoteMsgs with
    | [] =>
      if st.remoteChannelClosed then
        { events := [.disconnected], effects := [], ended := some .remoteClosed }
      else muxRun sch st
    | msg :: rest =>
      match msg with
      | .data b =>
        let r := muxRun sch { st with remoteMsgs := rest }
        { r with events := .data b :: r.events }
      | .extendedData b ext =>
        if ext = 1 then
          let r := muxRun sch { st with remoteMsgs := rest }
          { r with events := .data b :: r.events }
        else muxRun sch { st with remoteMsgs := rest }
      | .eof =>
        { events := [.disconnected], effects := [], ended := some .remoteClosed }
      | .exitStatus _ => muxRun sch { st with remoteMsgs := rest }
      | .other => muxRun sch { st with remoteMsgs := rest }

/-- The write effects of a run, in order. -/
def MuxEffect.writeOf : MuxEffect → Option Bytes
  | .writeData b => some b
  | .windowChange _ _ => none

/-- The window-change effects of a run, in order. -/
def MuxEffect.winOf : MuxEffect → Option (Nat × Nat)
  | .writeData _ => none
  | .windowChange c r => some (c, r)

/-- The payloads of the `Data` events of a run, in order. -/
def TerminalEvent.dataOf : TerminalEvent → Option Bytes
  | .data b => some b
  | _ => none

/-- The byte payloads the remote delivers on the channel, in arrival order
(`Data` payloads and `ExtendedData` payloads with tag 1). -/
def remoteDataPayloads : List ChannelMsg → List Bytes
  | [] => []
  | .data b :: rest => b :: remoteDataPayloads rest
  | .extendedData b ext :: rest =>
    if ext = 1 then b :: remoteDataPayloads rest else remoteDataPayloads rest
  | .exitStatus _ :: rest => remoteDataPayloads rest
  | .eof :: rest => remoteDataPayloads rest
  | .other :: rest => remoteDataPayloads rest

/-! ## Terminal session (`src-tauri/src/terminal/manager.rs`) -/

/-- `TerminalSession` from `terminal/manager.rs`: the two `mpsc::Sender`
handles are modelled by their presence. -/
structure TerminalSession where
  id : Nat
  host_id : Nat
  host_name : String
  cols : Nat
  rows : Nat
  ssh_client : Option SshClient
  input_tx : Bool
  resize_tx : Bool
deriving DecidableEq, Repr

/-- `TerminalSession::new_with_id` (`terminal/manager.rs` lines 47-58). -/
def TerminalSession.new_with_id (id host_id : Nat) (host_name : String) :
    TerminalSession :=
  { id := id, host_id := host_id, host_name := host_name,
    cols := 80, rows := 24,
    ssh_client := none, input_tx := false, resize_tx := false }

/-- Environment of one `TerminalSession::connect` call: the environment of
the inner `SshClient::connect` plus the outcome of `open_shell`'s channel
negotiation. -/
structure TermConnectEnv where
  ssh : SshConnectEnv
  shell : Except String Unit
deriving DecidableEq, Repr

/-- Everything observable about one `TerminalSession::connect` call: the
returned result, the session state after the call, whether the multiplexer
task was spawned, and the events the call itself emitted. -/
structure TermConnectResult where
  result : Except TerminalError Unit
  session : TerminalSession
  muxStarted : Bool
  emitted : List TerminalEvent
deriving DecidableEq, Repr

/-- `TerminalSession::connect` (`terminal/manager.rs` lines 72-153): builds
a fresh `SshClient`, connects it, opens a shell sized to the current
geometry, then — with no further failure point — creates the queues, spawns
the multiplexer task, emits `Connected` and stores the client and queue
handles.  Each `?` early return happens before any field of `self` is
assigned. -/
def TerminalSession.connect (s : TerminalSession) (cfg : SshConfig)
    (env : TermConnectEnv) : TermConnectResult :=
  let client := SshClient.new cfg
  match SshClient.connect client env.ssh with
  | (.error e, _) =>
    { result := .error (.ConnectionFailed e.message), session := s,
      muxStarted := false, emitted := [] }
  | (.ok (), client1) =>
    match SshClient.open_shell client1 env.shell with
    | .error e =>
      { result := .error (.Ssh e.message), session := s,
        muxStarted := false, emitted := [] }
    | .ok () =>
      { result := .ok (),
        session := { s with ssh_client := some client1,
                            input_tx := true, resize_tx := true },
        muxStarted := true,
        emitted := [.connected] }

/-- `TerminalSession::write` (`terminal/manager.rs` lines 156-165): errors
when no input queue handle exists; otherwise the `send` may fail if the
receiver is gone (`sendOk`); on success the chunk is enqueued. -/
def TerminalSession.write (s : TerminalSession) (data : Bytes)
    (sendOk : Bool) : Except TerminalError Unit × Option Bytes :=
  if s.input_tx then
    if sendOk then (.ok (), some data)
    else (.error (.Ssh "Failed to send input"), none)
  else (.error (.Ssh "Not connected"), none)

/-- `TerminalSession::resize` (`terminal/manager.rs` lines 168-178): always
stores the new geometry; only when a resize queue handle exists is the
request sent (`if let Some(tx)` with no else arm). -/
def TerminalSession.resize (s : TerminalSession) (cols rows : Nat)
    (sendOk : Bool) :
    Except TerminalError Unit × TerminalSession × Option (Nat × Nat) :=
  let s1 := { s with cols := cols, rows := rows }
  if s.resize_tx then
    if sendOk then (.ok (), s1, some (cols, rows))
    else (.error (.Ssh "Failed to send resize"), s1, none)
  else (.ok (), s1, none)

/-- `TerminalSession::disconnect` (`terminal/manager.rs` lines 186-198):
drops both queue handles, then `take`s the client and closes it; the client
is gone from the session even when the close errors. -/
def TerminalSession.disconnect (s : TerminalSession)
    (closeOutcome : Except String Unit) :
    Except TerminalError Unit × TerminalSession :=
  let s1 := { s with input_tx := false, resize_tx := false }
  match s1.ssh_client with
  | none => (.ok (), s1)
  | some c =>
    let s2 := { s1 with ssh_client := none }
    match (SshClient.disconnect c closeOutcome).1 with
    | .error e => (.error (.Ssh e.message), s2)
    | .ok () => (.ok (), s2)

/-! ## Session registry (`TerminalManager`, `terminal/manager.rs` 201-253,
and the command handlers of `terminal/commands.rs`)

`TerminalManager.sessions` is a `HashMap<Uuid, TerminalSession>`, modelled
as a total function to `Option`.  Every command handler acquires the
registry lock only for a single map operation (`get_session`,
`create_session_with_id`, `close_session`, `insert_session`) and never
across an `await`: each such statement is one atomic step of the machine
below. -/

/-- The registry map (`TerminalManager.sessions`). -/
abbrev TerminalManager := Nat → Option TerminalSession

/-- `TerminalManager::get_session` (a read-lock lookup). -/
def TerminalManager.getSession (m : TerminalManager) (id : Nat) :
    Option TerminalSession :=
  m id

/-- `TerminalManager::insert_session` (write-lock insert, overwriting). -/
def TerminalManager.insertSession (m : TerminalManager) (id : Nat)
    (s : TerminalSession) : TerminalManager :=
  fun k => if k = id then some s else m k

/-- `TerminalManager::close_session` (write-lock `HashMap::remove`):
returns the removed session and the map without it. -/
def TerminalManager.closeSession (m : TerminalManager) (id : Nat) :
    Option TerminalSession × TerminalManager :=
  (m id, fun k => if k = id then none else m k)

/-- `TerminalManager::create_session_with_id` (`terminal/manager.rs` lines
222-227): inserts `TerminalSession::new_with_id(id, host_id, host_name)`. -/
def TerminalManager.createSessionWithId (m : TerminalManager)
    (id host_id : Nat) (host_name : String) : TerminalManager :=
  TerminalManager.insertSession m id
    (TerminalSession.new_with_id id host_id host_name)

/-- A command handler from `terminal/commands.rs` acting on one session id,
together with the environment facts its awaited calls consume. -/
inductive RegistryOp
  | writeOp (data : Bytes) (sendOk : Bool)
  | resizeOp (cols rows : Nat) (sendOk : Bool)
  | closeOp (closeOutcome : Except String Unit)
  | connectOp (host : String) (cfg : SshConfig) (env : TermConnectEnv)
deriving DecidableEq, Repr

/-- Does the handler put the session back after its awaited operation?
`close_terminal` does not (the session is dropped); the others do. -/
def RegistryOp.putsBack : RegistryOp → Bool
  | .closeOp _ => false
  | _ => true

/-- Does the handler create the session when the id is absent?  Only
`connect_terminal` (lines 60-66) does. -/
def RegistryOp.creates : RegistryOp → Bool
  | .connectOp _ _ _ => true
  | _ => false

/-- The host address string `connect_terminal` passes as the host name. -/
def RegistryOp.hostName : RegistryOp → String
  | .connectOp host _ _ => host
  | _ => ""

/-- The awaited body of a handler, applied to the session held outside the
map: result and session afterwards. -/
def RegistryOp.runWork : RegistryOp → TerminalSession →
    Except TerminalError Unit × TerminalSession
  | .writeOp data sendOk, s => ((TerminalSession.write s data sendOk).1, s)
  | .resizeOp cols rows sendOk, s =>
    let r := TerminalSession.resize s cols rows sendOk
    (r.1, r.2.1)
  | .closeOp closeOutcome, s => TerminalSession.disconnect s closeOutcome
  | .connectOp _ cfg env, s =>
    let r := TerminalSession.connect s cfg env
    (r.result, r.session)

/-- Control state of one in-flight command handler.  `connect_terminal`
starts at `toCheck` (the existence check, line 61); the other handlers start
at `toTake`.  `working` and `toPut` are the phases during which the session
has been removed from the map. -/
inductive OpState
  | toCheck
  | toCreate (present : Bool)
  | toTake
  | working (sess : TerminalSession)
  | toPut (sess : TerminalSession) (res : Except TerminalError Unit)
  | finished (took : Bool) (res : Except TerminalError Unit)
deriving DecidableEq, Repr

/-- Initial control state of a handler. -/
def RegistryOp.start : RegistryOp → OpState
  | .connectOp _ _ _ => .toCheck
  | _ => .toTake

/-- Is the handler in its take-operate-put window (session out of the map)? -/
def OpState.holding : OpState → Bool
  | .working _ => true
  | .toPut _ _ => true
  | _ => false

/-- Is the handler in `connect_terminal`'s check/create preamble? -/
def OpState.inCreatePhase : OpState → Bool
  | .toCheck => true
  | .toCreate _ => true
  | _ => false

/-- Has the handler returned? -/
def OpState.isFinished : OpState → Bool
  | .finished _ _ => true
  | _ => false

/-- Did the handler finish, and did it succeed in taking a session (as
opposed to observing `SessionNotFound`)? -/
def OpState.tookSession : OpState → Option Bool
  | .finished took _ => some took
  | _ => none

/-- Steps remaining until the handler finishes. -/
def OpState.fuel : OpState → Nat
  | .toCheck => 5
  | .toCreate _ => 4
  | .toTake => 3
  | .working _ => 2
  | .toPut _ _ => 1
  | .finished _ _ => 0

/-- One atomic step of a handler: each case is one statement of
`terminal/commands.rs` that acquires the registry lock once (or the awaited
body running with the session detached). -/
def opStep (op : RegistryOp) (id : Nat) :
    OpState → TerminalManager → OpState × TerminalManager
  | .toCheck, m => (.toCreate (TerminalManager.getSession m id).isSome, m)
  | .toCreate present, m =>
    if present then (.toTake, m)
    else (.toTake, TerminalManager.createSessionWithId m id id op.hostName)
  | .toTake, m =>
    match TerminalManager.closeSession m id with
    | (some s, m1) => (.working s, m1)
    | (none, _) =>
      (.finished false (.error (.SessionNotFound (toString id))), m)
  | .working s, m =>
    let r := op.runWork s
    if op.putsBack then (.toPut r.2 r.1, m) else (.finished true r.1, m)
  | .toPut s res, m =>
    (.finished true res, TerminalManager.insertSession m id s)
  | .finished took res, m => (.finished took res, m)

/-- Run one handler alone for `n` steps (no concurrent interference). -/
def runOp (op : RegistryOp) (id : Nat) :
    Nat → OpState × TerminalManager → OpState × TerminalManager
  | 0, st => st
  | n + 1, (a, m) => runOp op id n (opStep op id a m)

/-- Joint state of two concurrent handlers and the registry. -/
structure TwoOps where
  m : TerminalManager
  a : OpState
  b : OpState

/-- Run two concurrent handlers under an interleaving: each schedule entry
says which handler performs its next atomic step (`true` = the first). -/
def runSched (opA opB : RegistryOp) (idA idB : Nat) :
    List Bool → TwoOps → TwoOps
  | [], st => st
  | true :: sched, st =>
    let r := opStep opA idA st.a st.m
    runSched opA opB idA idB sched { m := r.2, a := r.1, b := st.b }
  | false :: sched, st =>
    let r := opStep opB idB st.b st.m
    runSched opA opB idA idB sched { m := r.2, a := st.a, b := r.1 }

/-! ## Claim C1 -/

/-- Claim C1: for every config and every outcome of the connect attempt,
`TerminalSession::connect` either completes with the session connected
(client stored, input and resize queue handles present, multiplexer task
started) or returns an error with the session exactly as it was before the
call — in particular with `ssh_client`, `input_tx` and `resize_tx` still
absent when they were absent before — and no failure stores a transport or
channel in the session. -/
theorem claim_C1_connect_atomic (s : TerminalSession) (cfg : SshConfig)
    (env : TermConnectEnv) :
    (∀ e, (TerminalSession.connect s cfg env).result = .error e →
      (TerminalSession.connect s cfg env).session = s ∧
      (TerminalSession.connect s cfg env).muxStarted = false) ∧
    ((TerminalSession.connect s cfg env).result = .ok () →
      (TerminalSession.connect s cfg env).session.ssh_client.isSome = true ∧
      (TerminalSession.connect s cfg env).session.input_tx = true ∧
      (TerminalSession.connect s cfg env).session.resize_tx = true ∧
      (TerminalSession.connect s cfg env).muxStarted = true) := by
  rcases hc : SshClient.connect (SshClient.new cfg) env.ssh with ⟨r, c1⟩
  cases r with
  | error e => simp [TerminalSession.connect, hc]
  | ok u =>
    cases u
    cases hs : SshClient.open_shell c1 env.shell with
    | error e => simp [TerminalSession.connect, hc, hs]
    | ok u => cases u; simp [TerminalSession.connect, hc, hs]

/-- Witness for C1: a connect attempt whose transport phase times out leaves
a fresh session untouched, and a fully successful attempt reaches the
connected state with the multiplexer started. -/
theorem claim_C1_witness :
    ((TerminalSession.connect (TerminalSession.new_with_id 1 2 "box")
        ⟨"box", 22, "u", .Password "p", 30⟩
        ⟨⟨40, .ok (), .ok (), 0, .ok true⟩, .ok ()⟩).session =
      TerminalSession.new_with_id 1 2 "box") ∧
    ((TerminalSession.connect (TerminalSession.new_with_id 1 2 "box")
        ⟨"box", 22, "u", .Password "p", 30⟩
        ⟨⟨1, .ok (), .ok (), 0, .ok true⟩, .ok ()⟩).muxStarted = true) :=
  ⟨((claim_C1_connect_atomic _ _ _).1 (.ConnectionFailed "Timeout")
      (by decide)).1,
    ((claim_C1_connect_atomic _ _ _).2 (by decide)).2.2.2⟩

/-! ## Claim C5 -/

/-- Counterexample to claim C5 as stated: the claim says `connect` bounds
the connection **and authentication** phase by the configured timeout and
fails with `Timeout` when that is exceeded.  Here the connection phase is
instant but authentication takes 100 time units against a 1-unit timeout,
and `connect` still succeeds instead of failing with `Timeout`: only the
`client::connect` future is raced against the timeout
(`ssh/client.rs` line 227); authentication runs after the timeout wrapper. -/
theorem claim_C5_counterexample :
    (SshClient.new ⟨"h", 22, "u", .Password "p", 1⟩).config.timeout_seconds <
      (0 : Nat) + 100 ∧
    (SshClient.connect (SshClient.new ⟨"h", 22, "u", .Password "p", 1⟩)
        ⟨0, .ok (), .ok (), 100, .ok true⟩).1 = .ok () := by decide

/-- Claim C5 (amended): `SshClient::connect` bounds only the connection
phase by the configured timeout — it fails with the distinct `Timeout`
error exactly when the connection phase exceeds the timeout (so an
unreachable host with the timeout exceeded yields `Timeout`, never
`ConnectionFailed`); handshake and network errors within the timeout fail
with `ConnectionFailed`; and the result never depends on how long
authentication takes. -/
theorem claim_C5_timeout_kind (c : SshClient) (env : SshConnectEnv) :
    ((SshClient.connect c env).1 = .error .Timeout ↔
      c.config.timeout_seconds < env.connectElapsed) ∧
    (∀ e, ¬ c.config.timeout_seconds < env.connectElapsed →
      env.connectOutcome = .error e →
      (SshClient.connect c env).1 = .error (.ConnectionFailed e)) ∧
    (∀ n, SshClient.connect c env =
      SshClient.connect c { env with authElapsed := n }) := by
  refine ⟨?_, ?_, ?_⟩
  · by_cases h : c.config.timeout_seconds < env.connectElapsed
    · simp [SshClient.connect, h]
    · simp only [SshClient.connect, if_neg h]
      cases hco : env.connectOutcome with
      | error e => simp [h]
      | ok u =>
        cases u
        cases ham : c.config.auth_method with
        | Password p =>
          cases hao : env.authOutcome with
          | error e => simp [h]
          | ok b => cases b <;> simp [h]
        | PrivateKey kp pp =>
          cases hk : env.keyLoad with
          | error e => simp [h]
          | ok u =>
            cases u
            cases hao : env.authOutcome with
            | error e => simp [h]
            | ok b => cases b <;> simp [h]
        | Agent => simp [h]
  · intro e h hco
    simp [SshClient.connect, if_neg h, hco]
  · intro n
    simp [SshClient.connect]

/-- Witness for C5: with a 1-second timeout and a connect future needing 5,
the result is `Timeout`; with the same timeout and an instant refusal, the
result is `ConnectionFailed`. -/
theorem claim_C5_witness :
    ((SshClient.connect (SshClient.new ⟨"h", 22, "u", .Password "p", 1⟩)
        ⟨5, .ok (), .ok (), 0, .ok true⟩).1 = .error .Timeout) ∧
    ((SshClient.connect (SshClient.new ⟨"h", 22, "u", .Password "p", 1⟩)
        ⟨0, .error "connection refused", .ok (), 0, .ok true⟩).1 =
      .error (.ConnectionFailed "connection refused")) :=
  ⟨(claim_C5_timeout_kind _ _).1.mpr (by decide),
    (claim_C5_timeout_kind _ _).2.1 "connection refused" (by decide) (by decide)⟩

/-! ## Claim C6 -/

/-- Counterexample to claim C6 as stated: on a session with no multiplexer
running (both queue handles absent), `resize` returns `Ok` instead of a
"not connected" error — `terminal/manager.rs` lines 168-178 update the
stored geometry and silently skip the send when `resize_tx` is `None`
(`if let Some(tx)` with no else arm), unlike `write`. -/
theorem claim_C6_counterexample :
    (TerminalSession.new_with_id 1 1 "h").input_tx = false ∧
    (TerminalSession.new_with_id 1 1 "h").resize_tx = false ∧
    (TerminalSession.resize (TerminalSession.new_with_id 1 1 "h")
      100 40 true).1 = .ok () := by decide

/-- Claim C6 (amended): on a session with no multiplexer running, `write`
fails with a "not connected" error without enqueueing anything, while
`resize` silently succeeds — it stores the new geometry, sends nothing,
and returns `Ok`.  (Neither can block: with the queue handle absent no send
is attempted at all.) -/
theorem claim_C6_not_connected (s : TerminalSession) (data : Bytes)
    (cols rows : Nat) (sendOk : Bool) :
    (s.input_tx = false →
      TerminalSession.write s data sendOk =
        (.error (.Ssh "Not connected"), none)) ∧
    (s.resize_tx = false →
      TerminalSession.resize s cols rows sendOk =
        (.ok (), { s with cols := cols, rows := rows }, none)) := by
  constructor
  · intro h
    simp [TerminalSession.write, h]
  · intro h
    simp [TerminalSession.resize, h]

/-- Witness for C6: on a fresh session (no multiplexer), `write` fails with
the "not connected" error. -/
theorem claim_C6_witness :
    TerminalSession.write (TerminalSession.new_with_id 1 1 "h") [108] true =
      (.error (.Ssh "Not connected"), none) :=
  (claim_C6_not_connected (TerminalSession.new_with_id 1 1 "h") [108] 1 1
    true).1 (by decide)

/-! ## Claim C8 -/

/-- Claim C8: after `disconnect()` returns — even when the underlying close
fails — the connection handle is cleared (for `SshClient`, and likewise the
client and both queue handles for `TerminalSession`); a second `disconnect`
on the same object is a no-op that never errors, and the object is back in
the unconnected state a fresh `connect` starts from. -/
theorem claim_C8_disconnect_idempotent (c : SshClient) (s : TerminalSession)
    (o1 o2 o3 o4 : Except String Unit) :
    ((SshClient.disconnect c o1).2.session = none) ∧
    ((SshClient.disconnect c o1).2.is_connected = false) ∧
    (SshClient.disconnect (SshClient.disconnect c o1).2 o2 =
      (.ok (), (SshClient.disconnect c o1).2)) ∧
    ((TerminalSession.disconnect s o3).2.ssh_client = none ∧
      (TerminalSession.disconnect s o3).2.input_tx = false ∧
      (TerminalSession.disconnect s o3).2.resize_tx = false) ∧
    (TerminalSession.disconnect (TerminalSession.disconnect s o3).2 o4 =
      (.ok (), (TerminalSession.disconnect s o3).2)) := by
  obtain ⟨cc, cs, co⟩ := c
  obtain ⟨sid, shid, shn, scols, srows, scl, sit, srt⟩ := s
  cases cs <;> cases o1 <;> cases o3 <;>
    rcases scl with _ | ⟨c2c, c2s, c2o⟩ <;> (try cases c2s) <;>
    simp [SshClient.disconnect, TerminalSession.disconnect,
      SshClient.is_connected]

/-! ## Claim C9 -/

/-- Claim C9: for every config, when the connection phase succeeds within
the timeout, the credential material is usable (for the key path: the key
decodes, so the attempt reaches the server) and the server rejects the
credentials (`authenticate_password` / `authenticate_publickey` returns
`false`), `SshClient::connect` returns `AuthenticationFailed` from its
single `!authenticated` check without retrying, and the client is returned
exactly as it was — in particular its session handle is still absent.
(The unimplemented `Agent` path also returns `AuthenticationFailed` with
the client unchanged, before ever consulting the server.) -/
theorem claim_C9_auth_rejected (c : SshClient) (env : SshConnectEnv)
    (hTime : ¬ c.config.timeout_seconds < env.connectElapsed)
    (hConn : env.connectOutcome = .ok ())
    (hKey : env.keyLoad = .ok ())
    (hRej : env.authOutcome = .ok false) :
    SshClient.connect c env = (.error .AuthenticationFailed, c) := by
  cases hm : c.config.auth_method <;>
    simp [SshClient.connect, if_neg hTime, hConn, hKey, hRej, hm]

/-- Witness for C9: a fresh client whose password the server rejects, and a
fresh client whose decoded private key the server rejects, both get
`AuthenticationFailed` and keep their session handles absent. -/
theorem claim_C9_witness :
    (SshClient.connect (SshClient.new ⟨"h", 22, "u", .Password "wrong", 30⟩)
        ⟨1, .ok (), .ok (), 1, .ok false⟩ =
      (.error .AuthenticationFailed,
        SshClient.new ⟨"h", 22, "u", .Password "wrong", 30⟩)) ∧
    (SshClient.connect
        (SshClient.new ⟨"h", 22, "u", .PrivateKey "/home/u/key" none, 30⟩)
        ⟨1, .ok (), .ok (), 1, .ok false⟩ =
      (.error .AuthenticationFailed,
        SshClient.new ⟨"h", 22, "u", .PrivateKey "/home/u/key" none, 30⟩)) :=
  ⟨claim_C9_auth_rejected _ _ (by decide) (by decide) (by decide) (by decide),
    claim_C9_auth_rejected _ _ (by decide) (by decide) (by decide) (by decide)⟩

/-! ## Claim C7 -/

/-- The drain loop of `execute` computes exactly the accumulated stdout,
stderr and last exit status of the messages before the first `Eof`. -/
lemma executeLoop_eq (msgs : List ChannelMsg) :
    ∀ (stdout stderr : Bytes) (code : Int),
      executeLoop msgs stdout stderr code =
        (stdout ++ stdoutBytesOf msgs, stderr ++ stderrBytesOf msgs,
          lastExitOf msgs code) := by
  induction msgs with
  | nil =>
    intro stdout stderr code
    simp [executeLoop, stdoutBytesOf, stderrBytesOf, lastExitOf]
  | cons m rest ih =>
    intro stdout stderr code
    cases m with
    | data b =>
      simp [executeLoop, stdoutBytesOf, stderrBytesOf, lastExitOf, ih]
    | extendedData b ext =>
      by_cases hx : ext = 1 <;>
        simp [executeLoop, stdoutBytesOf, stderrBytesOf, lastExitOf, hx, ih]
    | exitStatus n =>
      simp [executeLoop, stdoutBytesOf, stderrBytesOf, lastExitOf, ih]
    | eof =>
      simp [executeLoop, stdoutBytesOf, stderrBytesOf, lastExitOf]
    | other =>
      simp [executeLoop, stdoutBytesOf, stderrBytesOf, lastExitOf, ih]

/-- When no `ExitStatus` message arrives at all, the drained exit code stays
at its default 0. -/
lemma lastExitOf_default (msgs : List ChannelMsg)
    (h : ∀ n, ChannelMsg.exitStatus n ∉ msgs) : lastExitOf msgs 0 = 0 := by
  induction msgs with
  | nil => simp [lastExitOf]
  | cons m rest ih =>
    have hrest : ∀ n, ChannelMsg.exitStatus n ∉ rest := fun n hn =>
      h n (List.mem_cons_of_mem _ hn)
    cases m with
    | data b => simpa [lastExitOf] using ih hrest
    | extendedData b ext => simpa [lastExitOf] using ih hrest
    | exitStatus n => exact absurd (List.mem_cons_self _ _) (h n)
    | eof => simp [lastExitOf]
    | other => simpa [lastExitOf] using ih hrest

/-- Counterexample to claim C7 as stated: the claim says `execute` resolves
on `ExitStatus` or `Eof`/close, whichever arrives first.  The code's drain
loop (`ssh/client.rs` lines 279-297) does not resolve on `ExitStatus` — it
records the code and keeps draining — so on the message sequence
`[ExitStatus 7, Data "x"]` followed by channel close it returns stdout
`"x"`, while a loop resolving at the first `ExitStatus` returns empty
stdout. -/
theorem claim_C7_counterexample :
    executeLoop [.exitStatus 7, .data [120]] [] [] 0 = ([120], [], 7) ∧
    executeLoopResolveAtStatus [.exitStatus 7, .data [120]] [] [] 0 =
      ([], [], 7) ∧
    executeLoop [.exitStatus 7, .data [120]] [] [] 0 ≠
      executeLoopResolveAtStatus [.exitStatus 7, .data [120]] [] [] 0 := by
  decide

/-- Claim C7 (amended): `SshClient::execute` fails `NotConnected` without a
session handle; otherwise it drains the whole channel — accumulating every
`Data` payload into stdout and every `ExtendedData` payload with tag 1 into
stderr, in order — and resolves only on `Eof` or channel close; an
`ExitStatus` message records the reported exit code (the last one received
wins) but does not terminate the drain; the exit code defaults to 0 when no
`ExitStatus` was sent; and the output is assembled and exposed only at
completion. -/
theorem claim_C7_execute_drain (c : SshClient)
    (openOutcome : Except String Unit) (msgs : List ChannelMsg) :
    (c.session = none →
      SshClient.execute c openOutcome msgs = .error .NotConnected) ∧
    (c.session = some () → openOutcome = .ok () →
      SshClient.execute c openOutcome msgs =
        .ok { stdout := stdoutBytesOf msgs, stderr := stderrBytesOf msgs,
              exit_code := lastExitOf msgs 0 }) ∧
    ((∀ n, ChannelMsg.exitStatus n ∉ msgs) → lastExitOf msgs 0 = 0) := by
  refine ⟨?_, ?_, lastExitOf_default msgs⟩
  · intro h
    simp [SshClient.execute, h]
  · intro h ho
    simp [SshClient.execute, h, ho, executeLoop_eq]

/-- Witness for C7: a connected client draining
`[Data "h", ExtendedData "e" tag 1, ExitStatus 3, Data "i"]` before the
channel closes reports stdout `"hi"`, stderr `"e"` and exit code 3; an
unconnected client fails `NotConnected`. -/
theorem claim_C7_witness :
    (SshClient.execute
        ⟨⟨"h", 22, "u", .Password "p", 30⟩, some (), false⟩ (.ok ())
        [.data [104], .extendedData [101] 1, .exitStatus 3, .data [105]] =
      .ok { stdout := [104, 105], stderr := [101], exit_code := 3 }) ∧
    (SshClient.execute
        ⟨⟨"h", 22, "u", .Password "p", 30⟩, none, false⟩ (.ok ())
        [] = .error .NotConnected) := by
  constructor
  · have := (claim_C7_execute_drain
      ⟨⟨"h", 22, "u", .Password "p", 30⟩, some (), false⟩ (.ok ())
      [.data [104], .extendedData [101] 1, .exitStatus 3, .data [105]]).2.1
      rfl rfl
    simpa [stdoutBytesOf, stderrBytesOf, lastExitOf, toI32] using this
  · exact (claim_C7_execute_drain
      ⟨⟨"h", 22, "u", .Password "p", 30⟩, none, false⟩ (.ok ()) []).1 rfl

/-! ## Claim C2 -/

/-- With both queues drained/dropped and the channel neither delivering nor
closed, every branch of the `select!` is disabled or pending: no schedule
makes the loop emit anything or break. -/
lemma muxRun_parked (sch : List Branch) : ∀ st : MuxState,
    st.inputQ = [] → st.resizeQ = [] → st.remoteMsgs = [] →
    st.remoteChannelClosed = false →
    muxRun sch st = { events := [], effects := [], ended := none } := by
  induction sch with
  | nil => intro st h1 h2 h3 h4; simp [muxRun]
  | cons b sch ih =>
    intro st h1 h2 h3 h4
    cases b <;> simp [muxRun, h1, h2, h3, h4] <;> exact ih st h1 h2 h3 h4

/-- Shape of every run of the multiplexer loop: if the loop broke because
the remote closed, the event stream is some `Data` events followed by one
final `Disconnected`; otherwise (still parked, or broken by a failed write)
no `Disconnected` appears at all.  The loop never emits `Connected`. -/
lemma muxRun_shape (sch : List Branch) : ∀ st : MuxState,
    ((muxRun sch st).ended = some .remoteClosed ∧
      ∃ pre, (muxRun sch st).events = pre ++ [.disconnected] ∧
        TerminalEvent.disconnected ∉ pre ∧ TerminalEvent.connected ∉ pre) ∨
    ((muxRun sch st).ended ≠ some .remoteClosed ∧
      TerminalEvent.disconnected ∉ (muxRun sch st).events ∧
      TerminalEvent.connected ∉ (muxRun sch st).events) := by
  induction sch with
  | nil =>
    intro st
    right
    simp [muxRun]
  | cons b sch ih =>
    intro st
    cases b with
    | input =>
      cases hq : st.inputQ with
      | nil => simpa [muxRun, hq] using ih st
      | cons p rest =>
        obtain ⟨bytes, ok⟩ := p
        cases ok with
        | false =>
          right
          simp [muxRun, hq]
        | true => simpa [muxRun, hq] using ih { st with inputQ := rest }
    | resize =>
      cases hq : st.resizeQ with
      | nil => simpa [muxRun, hq] using ih st
      | cons p rest =>
        obtain ⟨dims, ok⟩ := p
        cases ok with
        | false => simpa [muxRun, hq] using ih { st with resizeQ := rest }
        | true => simpa [muxRun, hq] using ih { st with resizeQ := rest }
    | remote =>
      cases hq : st.remoteMsgs with
      | nil =>
        cases hcl : st.remoteChannelClosed with
        | false => simpa [muxRun, hq, hcl] using ih st
        | true =>
          left
          exact ⟨by simp [muxRun, hq, hcl], [], by simp [muxRun, hq, hcl],
            by simp, by simp⟩
      | cons msg rest =>
        cases msg with
        | data b =>
          rcases ih { st with remoteMsgs := rest } with
            ⟨hend, pre, hev, hdisc, hconn⟩ | ⟨hend, hdisc, hconn⟩
          · left
            refine ⟨by simpa [muxRun, hq] using hend,
              .data b :: pre, ?_, ?_, ?_⟩
            · simp [muxRun, hq, hev]
            · simp [hdisc]
            · simp [hconn]
          · right
            refine ⟨by simpa [muxRun, hq] using hend, ?_, ?_⟩
            · simp [muxRun, hq, hdisc]
            · simp [muxRun, hq, hconn]
        | extendedData b ext =>
          by_cases hx : ext = 1
          · subst hx
            rcases ih { st with remoteMsgs := rest } with
              ⟨hend, pre, hev, hdisc, hconn⟩ | ⟨hend, hdisc, hconn⟩
            · left
              refine ⟨by simpa [muxRun, hq] using hend,
                .data b :: pre, ?_, ?_, ?_⟩
              · simp [muxRun, hq, hev]
              · simp [hdisc]
              · simp [hconn]
            · right
              refine ⟨by simpa [muxRun, hq] using hend, ?_, ?_⟩
              · simp [muxRun, hq, hdisc]
              · simp [muxRun, hq, hconn]
          · simpa [muxRun, hq, hx] using ih { st with remoteMsgs := rest }
        | eof =>
          left
          exact ⟨by simp [muxRun, hq], [], by simp [muxRun, hq],
            by simp, by simp⟩
        | exitStatus n =>
          simpa [muxRun, hq] using ih { st with remoteMsgs := rest }
        | other => simpa [muxRun, hq] using ih { st with remoteMsgs := rest }

/-- Counterexample to claim C2 as stated: a failed `channel.data` write is
one of the claim's three termination causes, but the loop breaks on it
without emitting `Disconnected` (`terminal/manager.rs` lines 100-104 log
and `break` with no emit), so this terminated run has an empty event
stream. -/
theorem claim_C2_counterexample :
    muxRun [.input]
        { inputQ := [([108], false)], resizeQ := [], remoteMsgs := [],
          remoteChannelClosed := false } =
      { events := [], effects := [], ended := some .writeFailed } ∧
    TerminalEvent.disconnected ∉
      (muxRun [.input]
        { inputQ := [([108], false)], resizeQ := [], remoteMsgs := [],
          remoteChannelClosed := false }).events := by
  decide

/-- Claim C2 (amended): in every run of the multiplexer loop, `Disconnected`
is emitted at most once, it is emitted exactly when the loop terminates
because the remote closed the channel (`Eof` or `wait()` returning `None`),
and it is then the last event of the run; a failed write terminates the
loop without emitting `Disconnected`; dropping both queues does not by
itself terminate the loop — with the remote silent, no schedule makes the
parked loop emit or break; the loop never emits `Connected`, and a
`connect` call emits at most one `Connected`. -/
theorem claim_C2_mux_events (sch : List Branch) (st : MuxState)
    (s : TerminalSession) (cfg : SshConfig) (env : TermConnectEnv) :
    ((muxRun sch st).events.count .disconnected ≤ 1) ∧
    ((muxRun sch st).ended = some .remoteClosed ↔
      TerminalEvent.disconnected ∈ (muxRun sch st).events) ∧
    ((muxRun sch st).ended = some .remoteClosed →
      ∃ pre, (muxRun sch st).events = pre ++ [.disconnected] ∧
        TerminalEvent.disconnected ∉ pre) ∧
    (TerminalEvent.connected ∉ (muxRun sch st).events) ∧
    ((TerminalSession.connect s cfg env).emitted.count .connected ≤ 1) ∧
    (st.inputQ = [] → st.resizeQ = [] → st.remoteMsgs = [] →
      st.remoteChannelClosed = false →
      muxRun sch st = { events := [], effects := [], ended := none }) := by
  have hconnect : (TerminalSession.connect s cfg env).emitted.count
      .connected ≤ 1 := by
    rcases hc : SshClient.connect (SshClient.new cfg) env.ssh with ⟨r, c1⟩
    cases r with
    | error e => simp [TerminalSession.connect, hc]
    | ok u =>
      cases u
      cases hs : SshClient.open_shell c1 env.shell with
      | error e => simp [TerminalSession.connect, hc, hs]
      | ok u => cases u; simp [TerminalSession.connect, hc, hs]
  rcases muxRun_shape sch st with
    ⟨hend, pre, hev, hdisc, hconn⟩ | ⟨hend, hdisc, hconn⟩
  · refine ⟨?_, ?_, fun _ => ⟨pre, hev, hdisc⟩, ?_, hconnect,
      muxRun_parked sch st⟩
    · rw [hev]
      simp [List.count_append, List.count_eq_zero.mpr hdisc]
    · rw [hev]
      simp [hend]
    · rw [hev]
      simp [hconn]
  · refine ⟨?_, ?_, fun h => absurd h hend, hconn, hconnect,
      muxRun_parked sch st⟩
    · simp [List.count_eq_zero.mpr hdisc]
    · constructor
      · intro h
        exact absurd h hend
      · intro h
        exact absurd h hdisc

/-- Witness for C2: when the remote sends `Data "o"` then `Eof` and both
branches get scheduled, the run ends with remote-close and its event stream
is `[Data "o", Disconnected]` — `Disconnected` last and only once. -/
theorem claim_C2_witness :
    ∃ pre,
      (muxRun [.remote, .remote]
        { inputQ := [], resizeQ := [], remoteMsgs := [.data [111], .eof],
          remoteChannelClosed := false }).events =
        pre ++ [TerminalEvent.disconnected] ∧
      TerminalEvent.disconnected ∉ pre :=
  (claim_C2_mux_events [.remote, .remote]
    { inputQ := [], resizeQ := [], remoteMsgs := [.data [111], .eof],
      remoteChannelClosed := false }
    (TerminalSession.new_with_id 1 1 "h")
    ⟨"h", 22, "u", .Password "p", 30⟩
    ⟨⟨0, .ok (), .ok (), 0, .ok true⟩, .ok ()⟩).2.2.1 (by decide)

/-! ## Claim C4 -/

/-- The chunks a run writes to the channel are an order-preserving front of
the input queue: the loop never reorders within the input source. -/
lemma muxRun_writes_front (sch : List Branch) : ∀ st : MuxState,
    (muxRun sch st).effects.filterMap MuxEffect.writeOf <+:
      st.inputQ.map Prod.fst := by
  induction sch with
  | nil => intro st; simp [muxRun]
  | cons b sch ih =>
    intro st
    cases b with
    | input =>
      cases hq : st.inputQ with
      | nil => simpa [muxRun, hq] using ih st
      | cons p rest =>
        obtain ⟨bytes, ok⟩ := p
        cases ok with
        | false => simp [muxRun, hq]
        | true =>
          obtain ⟨t, ht⟩ := ih { st with inputQ := rest }
          simp only [] at ht
          exact ⟨t, by simp [muxRun, hq, MuxEffect.writeOf, ht]⟩
    | resize =>
      cases hq : st.resizeQ with
      | nil => simpa [muxRun, hq] using ih st
      | cons p rest =>
        obtain ⟨dims, ok⟩ := p
        cases ok with
        | false => simpa [muxRun, hq] using ih { st with resizeQ := rest }
        | true =>
          simpa [muxRun, hq, MuxEffect.writeOf] using
            ih { st with resizeQ := rest }
    | remote =>
      cases hq : st.remoteMsgs with
      | nil =>
        cases hcl : st.remoteChannelClosed with
        | false => simpa [muxRun, hq, hcl] using ih st
        | true => simp [muxRun, hq, hcl]
      | cons msg rest =>
        cases msg with
        | data b => simpa [muxRun, hq] using ih { st with remoteMsgs := rest }
        | extendedData b ext =>
          by_cases hx : ext = 1 <;>
            simpa [muxRun, hq, hx] using ih { st with remoteMsgs := rest }
        | eof => simp [muxRun, hq]
        | exitStatus n =>
          simpa [muxRun, hq] using ih { st with remoteMsgs := rest }
        | other => simpa [muxRun, hq] using ih { st with remoteMsgs := rest }

/-- The `Data` events a run emits are an order-preserving front of the byte
payloads the remote delivered: the loop never reorders within the remote
source. -/
lemma muxRun_data_front (sch : List Branch) : ∀ st : MuxState,
    (muxRun sch st).events.filterMap TerminalEvent.dataOf <+:
      remoteDataPayloads st.remoteMsgs := by
  induction sch with
  | nil => intro st; simp [muxRun]
  | cons b sch ih =>
    intro st
    cases b with
    | input =>
      cases hq : st.inputQ with
      | nil => simpa [muxRun, hq] using ih st
      | cons p rest =>
        obtain ⟨bytes, ok⟩ := p
        cases ok with
        | false => simp [muxRun, hq]
        | true => simpa [muxRun, hq] using ih { st with inputQ := rest }
    | resize =>
      cases hq : st.resizeQ with
      | nil => simpa [muxRun, hq] using ih st
      | cons p rest =>
        obtain ⟨dims, ok⟩ := p
        cases ok with
        | false => simpa [muxRun, hq] using ih { st with resizeQ := rest }
        | true => simpa [muxRun, hq] using ih { st with resizeQ := rest }
    | remote =>
      cases hq : st.remoteMsgs with
      | nil =>
        cases hcl : st.remoteChannelClosed with
        | false => simpa [muxRun, hq, hcl] using ih st
        | true => simp [muxRun, hq, hcl, TerminalEvent.dataOf]
      | cons msg rest =>
        cases msg with
        | data b =>
          obtain ⟨t, ht⟩ := ih { st with remoteMsgs := rest }
          simp only [] at ht
          exact ⟨t, by
            simp [muxRun, hq, TerminalEvent.dataOf, remoteDataPayloads, ht]⟩
        | extendedData b ext =>
          by_cases hx : ext = 1
          · subst hx
            obtain ⟨t, ht⟩ := ih { st with remoteMsgs := rest }
            simp only [] at ht
            exact ⟨t, by
              simp [muxRun, hq, TerminalEvent.dataOf, remoteDataPayloads, ht]⟩
          · simpa [muxRun, hq, hx, remoteDataPayloads] using
              ih { st with remoteMsgs := rest }
        | eof => simp [muxRun, hq, TerminalEvent.dataOf]
        | exitStatus n =>
          simpa [muxRun, hq, remoteDataPayloads] using
            ih { st with remoteMsgs := rest }
        | other =>
          simpa [muxRun, hq, remoteDataPayloads] using
            ih { st with remoteMsgs := rest }

/-- The window-change control messages a run applies are an order-preserving
front of the successful resize requests: the loop never reorders within the
resize source either. -/
lemma muxRun_resize_front (sch : List Branch) : ∀ st : MuxState,
    (muxRun sch st).effects.filterMap MuxEffect.winOf <+:
      st.resizeQ.filterMap (fun p => if p.2 then some p.1 else none) := by
  induction sch with
  | nil => intro st; simp [muxRun]
  | cons b sch ih =>
    intro st
    cases b with
    | input =>
      cases hq : st.inputQ with
      | nil => simpa [muxRun, hq] using ih st
      | cons p rest =>
        obtain ⟨bytes, ok⟩ := p
        cases ok with
        | false => simp [muxRun, hq]
        | true =>
          simpa [muxRun, hq, MuxEffect.winOf] using
            ih { st with inputQ := rest }
    | resize =>
      cases hq : st.resizeQ with
      | nil => simpa [muxRun, hq] using ih st
      | cons p rest =>
        obtain ⟨dims, ok⟩ := p
        cases ok with
        | false =>
          simpa [muxRun, hq] using ih { st with resizeQ := rest }
        | true =>
          obtain ⟨t, ht⟩ := ih { st with resizeQ := rest }
          simp only [] at ht
          exact ⟨t, by simp [muxRun, hq, MuxEffect.winOf, ht]⟩
    | remote =>
      cases hq : st.remoteMsgs with
      | nil =>
        cases hcl : st.remoteChannelClosed with
        | false => simpa [muxRun, hq, hcl] using ih st
        | true => simp [muxRun, hq, hcl]
      | cons msg rest =>
        cases msg with
        | data b => simpa [muxRun, hq] using ih { st with remoteMsgs := rest }
        | extendedData b ext =>
          by_cases hx : ext = 1 <;>
            simpa [muxRun, hq, hx] using ih { st with remoteMsgs := rest }
        | eof => simp [muxRun, hq]
        | exitStatus n =>
          simpa [muxRun, hq] using ih { st with remoteMsgs := rest }
        | other => simpa [muxRun, hq] using ih { st with remoteMsgs := rest }

/-- Counterexample to claim C4 as stated: `tokio::select!` polls ready
branches in random order, so with one input chunk and one resize request
both pending, the schedule that polls the resize branch first applies the
window-change control message before the previously enqueued input chunk
reaches the write side — the claim's "all N chunks before the resize" fails
at N = 1. -/
theorem claim_C4_counterexample :
    muxRun [.resize, .input]
        { inputQ := [([108, 115], true)], resizeQ := [((120, 40), true)],
          remoteMsgs := [], remoteChannelClosed := false } =
      { events := [],
        effects := [.windowChange 120 40, .writeData [108, 115]],
        ended := none } := by
  decide

/-- Claim C4 (amended): the multiplexer never reorders within a single
source — in every run the chunks written to the channel are an
order-preserving front of the input queue, the outward `Data` events are an
order-preserving front of the remote's payloads, and the window-change
messages are an order-preserving front of the successful resize requests —
but ordering **across** sources is not guaranteed: the `select!` loop may
service a pending resize before input chunks enqueued earlier. -/
theorem claim_C4_source_order (sch : List Branch) (st : MuxState) :
    ((muxRun sch st).effects.filterMap MuxEffect.writeOf <+:
      st.inputQ.map Prod.fst) ∧
    ((muxRun sch st).events.filterMap TerminalEvent.dataOf <+:
      remoteDataPayloads st.remoteMsgs) ∧
    ((muxRun sch st).effects.filterMap MuxEffect.winOf <+:
      st.resizeQ.filterMap (fun p => if p.2 then some p.1 else none)) :=
  ⟨muxRun_writes_front sch st, muxRun_data_front sch st,
    muxRun_resize_front sch st⟩

/-! ## Claim C3 -/

/-- Invariant of two concurrent non-creating command handlers addressing
the same session id: neither is in `connect_terminal`'s create preamble,
the map has no entry for the id while either holds the session, and never
do both hold it. -/
def RegInv (id : Nat) (st : TwoOps) : Prop :=
  st.a.inCreatePhase = false ∧ st.b.inCreatePhase = false ∧
  ((st.a.holding = true ∨ st.b.holding = true) → st.m id = none) ∧
  ¬(st.a.holding = true ∧ st.b.holding = true)

lemma RegInv.swap {id : Nat} {st : TwoOps} (h : RegInv id st) :
    RegInv id { m := st.m, a := st.b, b := st.a } := by
  obtain ⟨h1, h2, h3, h4⟩ := h
  exact ⟨h2, h1, fun hh => h3 hh.symm, fun hh => h4 ⟨hh.2, hh.1⟩⟩

/-- One step of a non-creating handler preserves the exclusivity
invariant. -/
lemma opStep_preserves (op : RegistryOp) (id : Nat)
    (m : TerminalManager) (a b : OpState) (h : RegInv id ⟨m, a, b⟩) :
    RegInv id ⟨(opStep op id a m).2, (opStep op id a m).1, b⟩ := by
  obtain ⟨h1, h2, h3, h4⟩ := h
  cases a with
  | toCheck => simp [OpState.inCreatePhase] at h1
  | toCreate present => simp [OpState.inCreatePhase] at h1
  | toTake =>
    cases hm : m id with
    | none =>
      have hstep : opStep op id .toTake m =
          (.finished false (.error (.SessionNotFound (toString id))), m) := by
        simp [opStep, TerminalManager.closeSession, hm]
      rw [hstep]
      refine ⟨rfl, h2, ?_, ?_⟩
      · rintro (hh | hh)
        · simp [OpState.holding] at hh
        · exact h3 (Or.inr hh)
      · rintro ⟨hh, _⟩
        simp [OpState.holding] at hh
    | some sess =>
      have hstep : opStep op id .toTake m =
          (.working sess, fun k => if k = id then none else m k) := by
        simp [opStep, TerminalManager.closeSession, hm]
      rw [hstep]
      refine ⟨rfl, h2, ?_, ?_⟩
      · intro _
        simp
      · rintro ⟨_, hb⟩
        exact absurd (h3 (Or.inr hb)) (by simp [hm])
  | working sess =>
    cases hpb : op.putsBack with
    | true =>
      have hstep : opStep op id (.working sess) m =
          (.toPut (op.runWork sess).2 (op.runWork sess).1, m) := by
        simp [opStep, hpb]
      rw [hstep]
      refine ⟨rfl, h2, ?_, ?_⟩
      · intro _
        exact h3 (Or.inl rfl)
      · rintro ⟨_, hb⟩
        exact h4 ⟨rfl, hb⟩
    | false =>
      have hstep : opStep op id (.working sess) m =
          (.finished true (op.runWork sess).1, m) := by
        simp [opStep, hpb]
      rw [hstep]
      refine ⟨rfl, h2, ?_, ?_⟩
      · rintro (hh | hh)
        · simp [OpState.holding] at hh
        · exact absurd ⟨rfl, hh⟩ h4
      · rintro ⟨hh, _⟩
        simp [OpState.holding] at hh
  | toPut sess res =>
    refine ⟨rfl, h2, ?_, ?_⟩
    · rintro (hh | hh)
      · simp [opStep, OpState.holding] at hh
      · exact absurd ⟨rfl, hh⟩ h4
    · rintro ⟨hh, _⟩
      simp [opStep, OpState.holding] at hh
  | finished took res => exact ⟨h1, h2, h3, h4⟩

/-- The exclusivity invariant holds along every interleaving of two
non-creating handlers on the same id. -/
lemma runSched_preserves (opA opB : RegistryOp) (id : Nat) :
    ∀ (sched : List Bool) (st : TwoOps), RegInv id st →
      RegInv id (runSched opA opB id id sched st) := by
  intro sched
  induction sched with
  | nil => intro st h; simpa [runSched] using h
  | cons x sched ih =>
    intro st h
    obtain ⟨m, a, b⟩ := st
    cases x with
    | true =>
      have h1 := opStep_preserves opA id m a b h
      simpa [runSched] using ih _ h1
    | false =>
      have h1 := opStep_preserves opB id m b a (RegInv.swap h)
      have h2 := RegInv.swap h1
      simpa [runSched] using ih _ h2

lemma OpState.fuel_zero {a : OpState} (h : a.fuel = 0) :
    a.isFinished = true := by
  cases a <;> simp [OpState.fuel, OpState.isFinished] at h ⊢

lemma OpState.finished_fuel {a : OpState} (h : a.isFinished = true) :
    a.fuel = 0 := by
  cases a <;> simp [OpState.fuel, OpState.isFinished] at h ⊢

/-- Every step of a handler either consumes one unit of fuel or the handler
had already finished (and the step changes nothing): no state of a handler
can wait — lock acquisition is a single atomic map operation, so no
interleaving blocks a handler. -/
lemma opStep_fuel (op : RegistryOp) (id : Nat) (a : OpState)
    (m : TerminalManager) :
    (opStep op id a m).1.fuel ≤ a.fuel - 1 ∨
      (a.isFinished = true ∧ (opStep op id a m).1 = a) := by
  cases a with
  | toCheck => left; simp [opStep, OpState.fuel]
  | toCreate present =>
    left
    cases present <;> simp [opStep, OpState.fuel]
  | toTake =>
    left
    cases hm : m id <;>
      simp [opStep, TerminalManager.closeSession, hm, OpState.fuel]
  | working sess =>
    left
    cases hpb : op.putsBack <;> simp [opStep, hpb, OpState.fuel]
  | toPut sess res => left; simp [opStep, OpState.fuel]
  | finished took res => right; exact ⟨rfl, rfl⟩

/-- Whatever the other handler does, a handler finishes once it has been
scheduled as many times as it has fuel. -/
lemma runSched_a_finished (opA opB : RegistryOp) (id : Nat) :
    ∀ (sched : List Bool) (st : TwoOps),
      st.a.fuel ≤ sched.count true →
      ((runSched opA opB id id sched st).a).isFinished = true := by
  intro sched
  induction sched with
  | nil =>
    intro st h
    simp only [List.count_nil, Nat.le_zero] at h
    simpa [runSched] using OpState.fuel_zero h
  | cons x sched ih =>
    intro st h
    obtain ⟨m, a, b⟩ := st
    cases x with
    | false =>
      have h2 : a.fuel ≤ sched.count true := by
        simpa [List.count_cons] using h
      simpa [runSched] using ih _ h2
    | true =>
      rcases opStep_fuel opA id a m with hf | ⟨hfin, heq⟩
      · have h3 : a.fuel ≤ sched.count true + 1 := by
          simpa [List.count_cons] using h
        have h2 : (opStep opA id a m).1.fuel ≤ sched.count true := by omega
        simpa [runSched] using ih _ h2
      · have h2 : (opStep opA id a m).1.fuel ≤ sched.count true := by
          rw [heq, OpState.finished_fuel hfin]
          exact Nat.zero_le _
        simpa [runSched] using ih _ h2

/-- Mirror of `runSched_a_finished` for the second handler. -/
lemma runSched_b_finished (opA opB : RegistryOp) (id : Nat) :
    ∀ (sched : List Bool) (st : TwoOps),
      st.b.fuel ≤ sched.count false →
      ((runSched opA opB id id sched st).b).isFinished = true := by
  intro sched
  induction sched with
  | nil =>
    intro st h
    simp only [List.count_nil, Nat.le_zero] at h
    simpa [runSched] using OpState.fuel_zero h
  | cons x sched ih =>
    intro st h
    obtain ⟨m, a, b⟩ := st
    cases x with
    | true =>
      have h2 : b.fuel ≤ sched.count false := by
        simpa [List.count_cons] using h
      simpa [runSched] using ih _ h2
    | false =>
      rcases opStep_fuel opB id b m with hf | ⟨hfin, heq⟩
      · have h3 : b.fuel ≤ sched.count false + 1 := by
          simpa [List.count_cons] using h
        have h2 : (opStep opB id b m).1.fuel ≤ sched.count false := by omega
        simpa [runSched] using ih _ h2
      · have h2 : (opStep opB id b m).1.fuel ≤ sched.count false := by
          rw [heq, OpState.finished_fuel hfin]
          exact Nat.zero_le _
        simpa [runSched] using ih _ h2

/-- Counterexample to claim C3 as stated: the claim's pair of concurrent
operations includes `connect`, but `connect_terminal` does not observe
`SessionNotFound` when the id is absent — it creates a fresh session.  In
this interleaving, handler A (`write_terminal`) takes session 7; handler B
(`connect_terminal`) then finds the id absent, creates a fresh session
under it, and takes that one — both operations succeed in taking a session
and neither observes `SessionNotFound`; A's put-back finally overwrites
B's session. -/
theorem claim_C3_counterexample :
    (fun st : TwoOps => (st.a.tookSession, st.b.tookSession, st.m 7))
      (runSched (.writeOp [1] true)
        (.connectOp "hostB" ⟨"hostB", 22, "u", .Password "p", 1⟩
          ⟨⟨2, .ok (), .ok (), 0, .ok true⟩, .ok ()⟩)
        7 7 [true, false, false, false, false, false, true, true]
        { m := fun k =>
            if k = 7 then some (TerminalSession.new_with_id 7 3 "hostA")
            else none,
          a := (RegistryOp.writeOp [1] true).start,
          b := (RegistryOp.connectOp "hostB"
            ⟨"hostB", 22, "u", .Password "p", 1⟩
            ⟨⟨2, .ok (), .ok (), 0, .ok true⟩, .ok ()⟩).start }) =
      (some true, some true,
        some (TerminalSession.new_with_id 7 3 "hostA")) := by
  decide

/-- Claim C3 (amended, for the non-creating operations `write`, `resize`
and `close`): along every interleaving of two such handlers on the same id,
never do both hold the session; the entry is physically absent from the map
while either holds it, so any take attempted during that window — by any
handler — observes `SessionNotFound`; and neither handler can be blocked:
each finishes once it has been scheduled five times, for any interleaving
(`connect_terminal`, by contrast, creates a fresh session when the id is
absent and so evades this exclusivity — see the counterexample). -/
theorem claim_C3_registry_exclusivity (opA opB : RegistryOp) (id : Nat)
    (m0 : TerminalManager) (sched : List Bool) (st : TwoOps)
    (hA : opA.creates = false) (hB : opB.creates = false)
    (hst : st = runSched opA opB id id sched
      { m := m0, a := opA.start, b := opB.start }) :
    (¬(st.a.holding = true ∧ st.b.holding = true)) ∧
    ((st.a.holding = true ∨ st.b.holding = true) →
      TerminalManager.getSession st.m id = none) ∧
    ((st.a.holding = true ∨ st.b.holding = true) →
      ∀ otherOp : RegistryOp,
        (opStep otherOp id .toTake st.m).1 =
          .finished false (.error (.SessionNotFound (toString id)))) ∧
    (5 ≤ sched.count true → st.a.isFinished = true) ∧
    (5 ≤ sched.count false → st.b.isFinished = true) := by
  have hA2 : opA.start.inCreatePhase = false := by
    cases opA <;>
      simp_all [RegistryOp.creates, RegistryOp.start, OpState.inCreatePhase]
  have hB2 : opB.start.inCreatePhase = false := by
    cases opB <;>
      simp_all [RegistryOp.creates, RegistryOp.start, OpState.inCreatePhase]
  have hA3 : opA.start.holding = false := by
    cases opA <;> simp [RegistryOp.start, OpState.holding]
  have hB3 : opB.start.holding = false := by
    cases opB <;> simp [RegistryOp.start, OpState.holding]
  have h0 : RegInv id { m := m0, a := opA.start, b := opB.start } := by
    refine ⟨hA2, hB2, ?_, ?_⟩
    · rintro (hh | hh)
      · rw [hA3] at hh
        cases hh
      · rw [hB3] at hh
        cases hh
    · rintro ⟨hh, _⟩
      rw [hA3] at hh
      cases hh
  subst hst
  obtain ⟨h1, h2, h3, h4⟩ := runSched_preserves opA opB id sched _ h0
  refine ⟨h4, fun h => h3 h, ?_, ?_, ?_⟩
  · intro h otherOp
    have hm := h3 h
    simp [opStep, TerminalManager.closeSession, hm]
  · intro hc
    have hfuel : opA.start.fuel ≤ 5 := by
      cases opA <;> simp [RegistryOp.start, OpState.fuel]
    exact runSched_a_finished opA opB id sched _ (le_trans hfuel hc)
  · intro hc
    have hfuel : opB.start.fuel ≤ 5 := by
      cases opB <;> simp [RegistryOp.start, OpState.fuel]
    exact runSched_b_finished opA opB id sched _ (le_trans hfuel hc)

/-- Witness for C3: a `write_terminal` and a `resize_terminal` on the same
(empty) id, scheduled A five times then B five times, both run to
completion. -/
theorem claim_C3_witness :
    ((runSched (.writeOp [1] true) (.resizeOp 2 3 true) 0 0
        [true, true, true, true, true, false, false, false, false, false]
        { m := fun _ => none,
          a := (RegistryOp.writeOp [1] true).start,
          b := (RegistryOp.resizeOp 2 3 true).start }).a).isFinished =
      true :=
  (claim_C3_registry_exclusivity (.writeOp [1] true) (.resizeOp 2 3 true) 0
    (fun _ => none)
    [true, true, true, true, true, false, false, false, false, false]
    _ rfl rfl rfl).2.2.2.1 (by decide)

/-! ## Claim C10 -/

/-- Claim C10: for a session id absent from the registry, `connect_terminal`
does not fail with `SessionNotFound`: it first creates a fresh session under
that exact id — reusing the session id as the host id and the host address
string as the host name, with the default 80×24 geometry — and proceeds to
take and connect it, finishing with the (non-`SessionNotFound`) result of
that connect; the entry is present in the map right after the create step,
and the take step yields `SessionNotFound` exactly on a map where the id is
(again) absent — i.e. only an id that vanishes between the creation step
and the take step produces `SessionNotFound`. -/
theorem claim_C10_connect_creates (m : TerminalManager) (id : Nat)
    (host : String) (cfg : SshConfig) (env : TermConnectEnv)
    (h : m id = none) :
    ((runOp (.connectOp host cfg env) id 5
        ((RegistryOp.connectOp host cfg env).start, m)).1 =
      .finished true
        (TerminalSession.connect (TerminalSession.new_with_id id id host)
          cfg env).result) ∧
    (TerminalManager.getSession
        (TerminalManager.createSessionWithId m id id host) id =
      some (TerminalSession.new_with_id id id host)) ∧
    ((TerminalSession.new_with_id id id host).host_id = id ∧
      (TerminalSession.new_with_id id id host).host_name = host ∧
      (TerminalSession.new_with_id id id host).cols = 80 ∧
      (TerminalSession.new_with_id id id host).rows = 24) ∧
    (∀ msg, (TerminalSession.connect (TerminalSession.new_with_id id id host)
        cfg env).result ≠ .error (.SessionNotFound msg)) ∧
    (∀ m2 : TerminalManager,
      ((opStep (.connectOp host cfg env) id .toTake m2).1 =
          .finished false (.error (.SessionNotFound (toString id))) ↔
        m2 id = none)) := by
  refine ⟨?_, ?_, ?_, ?_, ?_⟩
  · have e1 : opStep (.connectOp host cfg env) id .toCheck m =
        (.toCreate false, m) := by
      simp [opStep, TerminalManager.getSession, h]
    have e2 : opStep (.connectOp host cfg env) id (.toCreate false) m =
        (.toTake, TerminalManager.createSessionWithId m id id host) := by
      simp [opStep, RegistryOp.hostName]
    have hm1 : TerminalManager.createSessionWithId m id id host id =
        some (TerminalSession.new_with_id id id host) := by
      simp [TerminalManager.createSessionWithId, TerminalManager.insertSession]
    have e3 : opStep (.connectOp host cfg env) id .toTake
        (TerminalManager.createSessionWithId m id id host) =
        (.working (TerminalSession.new_with_id id id host),
          (TerminalManager.closeSession
            (TerminalManager.createSessionWithId m id id host) id).2) := by
      simp [opStep, TerminalManager.closeSession, hm1]
    have e4 : ∀ mx : TerminalManager,
        opStep (.connectOp host cfg env) id
          (.working (TerminalSession.new_with_id id id host)) mx =
        (.toPut
          (TerminalSession.connect (TerminalSession.new_with_id id id host)
            cfg env).session
          (TerminalSession.connect (TerminalSession.new_with_id id id host)
            cfg env).result, mx) := by
      intro mx
      simp [opStep, RegistryOp.putsBack, RegistryOp.runWork]
    have e5 : ∀ (mx : TerminalManager) (sess : TerminalSession)
        (res : Except TerminalError Unit),
        opStep (.connectOp host cfg env) id (.toPut sess res) mx =
        (.finished true res, TerminalManager.insertSession mx id sess) := by
      intro mx sess res
      simp [opStep]
    rw [show runOp (.connectOp host cfg env) id 5
        ((RegistryOp.connectOp host cfg env).start, m) =
      runOp (.connectOp host cfg env) id 4
        (opStep (.connectOp host cfg env) id .toCheck m) from rfl, e1]
    rw [show runOp (.connectOp host cfg env) id 4 (.toCreate false, m) =
      runOp (.connectOp host cfg env) id 3
        (opStep (.connectOp host cfg env) id (.toCreate false) m) from rfl,
      e2]
    rw [show runOp (.connectOp host cfg env) id 3
        (.toTake, TerminalManager.createSessionWithId m id id host) =
      runOp (.connectOp host cfg env) id 2
        (opStep (.connectOp host cfg env) id .toTake
          (TerminalManager.createSessionWithId m id id host)) from rfl, e3]
    rw [show runOp (.connectOp host cfg env) id 2
        (.working (TerminalSession.new_with_id id id host),
          (TerminalManager.closeSession
            (TerminalManager.createSessionWithId m id id host) id).2) =
      runOp (.connectOp host cfg env) id 1
        (opStep (.connectOp host cfg env) id
          (.working (TerminalSession.new_with_id id id host))
          (TerminalManager.closeSession
            (TerminalManager.createSessionWithId m id id host) id).2)
      from rfl, e4]
    rw [show runOp (.connectOp host cfg env) id 1
        (.toPut
          (TerminalSession.connect (TerminalSession.new_with_id id id host)
            cfg env).session
          (TerminalSession.connect (TerminalSession.new_with_id id id host)
            cfg env).result,
          (TerminalManager.closeSession
            (TerminalManager.createSessionWithId m id id host) id).2) =
      runOp (.connectOp host cfg env) id 0
        (opStep (.connectOp host cfg env) id
          (.toPut
            (TerminalSession.connect
              (TerminalSession.new_with_id id id host) cfg env).session
            (TerminalSession.connect
              (TerminalSession.new_with_id id id host) cfg env).result)
          (TerminalManager.closeSession
            (TerminalManager.createSessionWithId m id id host) id).2)
      from rfl, e5]
    rfl
  · simp [TerminalManager.getSession, TerminalManager.createSessionWithId,
      TerminalManager.insertSession]
  · simp [TerminalSession.new_with_id]
  · intro msg
    rcases hc : SshClient.connect (SshClient.new cfg) env.ssh with ⟨r, c1⟩
    cases r with
    | error e => simp [TerminalSession.connect, hc]
    | ok u =>
      cases u
      cases hs : SshClient.open_shell c1 env.shell with
      | error e => simp [TerminalSession.connect, hc, hs]
      | ok u => cases u; simp [TerminalSession.connect, hc, hs]
  · intro m2
    constructor
    · intro hstep
      cases hm : m2 id with
      | none => rfl
      | some sess =>
        rw [show (opStep (.connectOp host cfg env) id .toTake m2).1 =
            .working sess by
          simp [opStep, TerminalManager.closeSession, hm]] at hstep
        cases hstep
    · intro hm
      simp [opStep, TerminalManager.closeSession, hm]

/-- Witness for C10: connecting an absent id 9 against host "box" creates
the fresh 80×24 session under id 9 and finishes with the connect result,
not `SessionNotFound`. -/
theorem claim_C10_witness :
    (runOp
        (.connectOp "box" ⟨"box", 22, "u", .Password "p", 30⟩
          ⟨⟨0, .ok (), .ok (), 0, .ok true⟩, .ok ()⟩) 9 5
        ((RegistryOp.connectOp "box" ⟨"box", 22, "u", .Password "p", 30⟩
          ⟨⟨0, .ok (), .ok (), 0, .ok true⟩, .ok ()⟩).start,
          fun _ => none)).1 =
      .finished true
        (TerminalSession.connect (TerminalSession.new_with_id 9 9 "box")
          ⟨"box", 22, "u", .Password "p", 30⟩
          ⟨⟨0, .ok (), .ok (), 0, .ok true⟩, .ok ()⟩).result :=
  (claim_C10_connect_creates (fun _ => none) 9 "box"
    ⟨"box", 22, "u", .Password "p", 30⟩
    ⟨⟨0, .ok (), .ok (), 0, .ok true⟩, .ok ()⟩ rfl).1

end StumpfNexus
